import Mathlib

/- Verification development for the sparx HTTP/WebSocket server core
   (Rust sources under native/sparx/src). The Rust code is shallowly
   embedded: bytes are lists of Nat (each < 256 at runtime), channels are
   modelled by the ordered list of items they deliver, and the mutex-guarded
   optional fields of the NIF resource handles are modelled as Option fields
   of explicit state records threaded through each operation. -/

deriving instance DecidableEq for Except

namespace Sparx

/-- Byte strings (Rust `Bytes` / `Vec<u8>`) as lists of byte values. -/
abbrev Chunk := List Nat

/-- Byte view of a Lean string. Every string this development evaluates on
is ASCII, where the UTF-8 byte sequence is exactly the codepoint list. -/
def strBytes (s : String) : Chunk := s.data.map Char.toNat

/-- NifResult from response.rs: Ok or Error(msg). -/
inductive NifResult where
  | ok
  | error (msg : String)
deriving DecidableEq

/-- ResponseMessage from request.rs: the response-part channel message type. -/
inductive ResponseMessage where
  | Status (code : Nat)
  | Header (name value : String)
  | BodyChunk (chunk : Chunk)
  | Finish
deriving DecidableEq

/-- u16_to_status from response.rs: `StatusCode::from_u16(code).unwrap_or(500)`.
The http crate accepts exactly the codes in 100..=999; anything else becomes
500 (INTERNAL_SERVER_ERROR). -/
def u16_to_status (code : Nat) : Nat :=
  if 100 ≤ code ∧ code ≤ 999 then code else 500

/-- ResponseBuilder from response.rs: accumulated status, header pairs and
body chunks. -/
structure ResponseBuilder where
  status : Option Nat
  headers : List (String × String)
  body_chunks : List Chunk
deriving DecidableEq

def ResponseBuilder.new : ResponseBuilder :=
  { status := none, headers := [], body_chunks := [] }

def ResponseBuilder.set_status (b : ResponseBuilder) (s : Nat) : ResponseBuilder :=
  { b with status := some (u16_to_status s) }

def ResponseBuilder.add_header (b : ResponseBuilder) (name value : String) : ResponseBuilder :=
  { b with headers := b.headers ++ [(name, value)] }

def ResponseBuilder.add_body_chunk (b : ResponseBuilder) (c : Chunk) : ResponseBuilder :=
  { b with body_chunks := b.body_chunks ++ [c] }

/-- The hyper response as far as this core determines it: status, ordered
header pairs, and the ordered list of body frames (empty list = the
`Empty` body; a nonempty list = the `StreamBody` over those frames). -/
structure HttpResponse where
  status : Nat
  headers : List (String × String)
  bodyChunks : List Chunk
deriving DecidableEq

/-- Lowercasing of an ASCII uppercase letter, as the http crate header-name
table performs it. -/
def asciiLower (c : Char) : Char :=
  if 'A' ≤ c ∧ c ≤ 'Z' then Char.ofNat (c.toNat + 32) else c

def asciiLowerString (s : String) : String :=
  String.mk (s.data.map asciiLower)

/-- Valid header-name byte per the http crate HeaderName table: the RFC
7230 token characters — digits, letters (uppercase accepted and normalized
to lowercase), and the symbols listed by code point: exclamation mark 33,
number sign 35, dollar 36, percent 37, ampersand 38, apostrophe 39,
asterisk 42, plus 43, hyphen 45, dot 46, caret 94, underscore 95,
backquote 96, vertical bar 124, tilde 126. -/
def isTokenByte (b : Nat) : Bool :=
  (48 ≤ b && b ≤ 57) || (97 ≤ b && b ≤ 122) || (65 ≤ b && b ≤ 90) ||
  b == 33 || b == 35 || b == 36 || b == 37 || b == 38 || b == 39 ||
  b == 42 || b == 43 || b == 45 || b == 46 || b == 94 || b == 95 ||
  b == 96 || b == 124 || b == 126

/-- HeaderName validity per the http crate: nonempty, all token bytes. -/
def validHeaderName (s : String) : Bool :=
  !(strBytes s).isEmpty && (strBytes s).all isTokenByte

/-- Valid header-value byte per the http crate: horizontal tab (9), or any
byte that is at least 32 and is not DEL (127); bytes at or above 128 are
accepted, so checking the codepoints of a string is equivalent to checking
its UTF-8 bytes. -/
def isValueByte (b : Nat) : Bool :=
  b == 9 || (32 ≤ b && b != 127)

/-- HeaderValue validity per the http crate. -/
def validHeaderValue (s : String) : Bool :=
  (strBytes s).all isValueByte

def validHeaderPair (p : String × String) : Bool :=
  validHeaderName p.1 && validHeaderValue p.2

/-- ResponseBuilder::build from response.rs. Status defaults to 200 and the
body is the chunk stream (empty when no chunks were accumulated). Each
accumulated header pair passes through `Response::builder().header`, where
the http crate validates the name (RFC 7230 token, ASCII uppercase
normalized to lowercase) and the value (no control bytes other than tab);
one invalid pair poisons the hyper builder, making `.body(...)` return the
Err the Rust code maps to a "Failed to build response" message (the Rust
string also appends the display of the crate error; the model keeps the
fixed prefix). -/
def ResponseBuilder.build (b : ResponseBuilder) : Except String HttpResponse :=
  if b.headers.all validHeaderPair then
    .ok { status := b.status.getD 200
          headers := b.headers.map (fun p => (asciiLowerString p.1, p.2))
          bodyChunks := b.body_chunks }
  else
    .error "Failed to build response"

/-- The receive loop of build_response_from_channel from response.rs,
processing the messages the channel delivers in order and stopping at the
first Finish. -/
def processMessages : ResponseBuilder → List ResponseMessage → ResponseBuilder
  | b, [] => b
  | b, .Status s :: rest => processMessages (b.set_status s) rest
  | b, .Header n v :: rest => processMessages (b.add_header n v) rest
  | b, .BodyChunk c :: rest => processMessages (b.add_body_chunk c) rest
  | b, .Finish :: _ => b

/-- build_response_from_channel from response.rs, as a function of the full
ordered list of messages the response-part channel delivers before closing. -/
def build_response_from_channel (msgs : List ResponseMessage) : Except String HttpResponse :=
  (processMessages ResponseBuilder.new msgs).build

/-- The status accumulated by the builder loop over the messages before the
first Finish: the last Status message wins, each coerced by u16_to_status. -/
def statusAcc (cur : Option Nat) : List ResponseMessage → Option Nat
  | [] => cur
  | .Status c :: rest => statusAcc (some (u16_to_status c)) rest
  | .Finish :: _ => cur
  | _ :: rest => statusAcc cur rest

/-- The ordered header pairs among the messages before the first Finish. -/
def headerPairs : List ResponseMessage → List (String × String)
  | [] => []
  | .Header n v :: rest => (n, v) :: headerPairs rest
  | .Finish :: _ => []
  | _ :: rest => headerPairs rest

/-- The ordered body chunks among the messages before the first Finish. -/
def chunkList : List ResponseMessage → List Chunk
  | [] => []
  | .BodyChunk c :: rest => c :: chunkList rest
  | .Finish :: _ => []
  | _ :: rest => chunkList rest

/-- The message list the consumer sequence send_status(s); send_header(h,v);
write_chunk(c1); write_chunk(c2); finish() delivers into the response-part
channel: each NIF awaits its send before returning, so the channel carries
exactly these five messages in order. -/
def consumerSequence (s : Nat) (hn hv : String) (c1 c2 : Chunk) : List ResponseMessage :=
  [.Status s, .Header hn hv, .BodyChunk c1, .BodyChunk c2, .Finish]

/- Request body channel (server.rs body pump task and request.rs reader). -/

/-- One frame of the incoming hyper request body as the pump loop sees it:
a data frame, a dataless frame (trailers), or a read error. -/
inductive BodyFrame where
  | data (chunk : Chunk)
  | trailers
  | ioError (msg : String)
deriving DecidableEq

/-- Items travelling on the body channel: `Result<Bytes, String>`. -/
abbrev BodyItem := Except String Chunk

/-- The body pump task of handle_request in server.rs, as the ordered list of
items it sends on the body channel (receiver assumed alive): data frames are
forwarded, dataless frames are skipped, a read error forwards an error marker
and stops, and wire-body completion forwards a zero-length chunk as the EOF
sentinel and stops. -/
def bodyPump : List BodyFrame → List BodyItem
  | [] => [.ok []]
  | .data c :: rest => .ok c :: bodyPump rest
  | .trailers :: rest => bodyPump rest
  | .ioError e :: _ => [.error e]

/-- State of the body_rx field of RequestHandle: `Mutex<Option<Receiver>>`.
some items = the receiver is present and will deliver the listed items before
the (already terminated) pump closes the channel; none = the receiver was
removed. -/
abbrev BodyState := Option (List BodyItem)

/-- Result of RequestHandle::read_body_chunk: Ok(Some(bytes)), Ok(None), or
Err(msg). -/
inductive ReadResult where
  | chunk (c : Chunk)
  | eof
  | err (msg : String)
deriving DecidableEq

/-- RequestHandle::read_body_chunk from request.rs. An empty chunk signals
EOF; a closed channel (no items left) signals EOF; an error item is returned
as an error. The receiver Option is only read, never taken, so the state
stays `some`. -/
def read_body_chunk : BodyState → ReadResult × BodyState
  | none => (.err "Body stream already consumed", none)
  | some [] => (.eof, some [])
  | some (.ok c :: rest) =>
      if c = [] then (.eof, some rest) else (.chunk c, some rest)
  | some (.error e :: rest) => (.err e, some rest)

/-- The results of n successive read_body_chunk calls. -/
def readMany : Nat → BodyState → List ReadResult
  | 0, _ => []
  | n + 1, st =>
      (read_body_chunk st).1 :: readMany n (read_body_chunk st).2

/-- How read_body_chunk reports one delivered channel item. -/
def readItemResult : BodyItem → ReadResult
  | .ok c => if c = [] then .eof else .chunk c
  | .error e => .err e

/- RequestHandle (request.rs) and the consumer-facing NIFs (lib.rs). -/

/-- RequestMetadata from request.rs. -/
structure RequestMetadata where
  method : String
  path : String
  query : Option String
  version : String
  headers : List (String × String)
deriving DecidableEq

/-- RequestHandle from request.rs: the mutex-guarded optional body receiver
and response sender. The sender is modelled by a unit token (cloning a
sender yields an equal token). The upgrade_slot field is the at-most-once
upgrade capability; lib.rs consumes it through `take_upgrade`, whose
definition is absent from the sources at hand, so it is modelled from the
spec (section 3: an at-most-once-takeable capability, tagged
Available/Taken under a single-owner lock). -/
structure RequestHandle where
  metadata : RequestMetadata
  body_rx : BodyState
  response_tx : Option Unit
  upgrade_slot : Option Unit
deriving DecidableEq

/-- RequestHandle::new from request.rs: both optional fields start populated.
The upgrade slot starts available (spec-modelled, matching the Pending state
of section 4.5). -/
def RequestHandle.new (md : RequestMetadata) (items : List BodyItem) : RequestHandle :=
  { metadata := md, body_rx := some items, response_tx := some (), upgrade_slot := some () }

/-- RequestHandle::get_response_sender from request.rs:
`guard.as_ref().cloned()` — returns a clone of the sender if present and
leaves the handle unchanged. -/
def get_response_sender (h : RequestHandle) : Option Unit :=
  h.response_tx

/-- Whether the response-part channel still has its receiver
(build_response_from_channel still running). Sending on the channel succeeds
exactly when it does; after the builder saw Finish it returns and drops the
receiver, making later sends fail. -/
abbrev SinkAlive := Bool

/-- send_status from lib.rs. -/
def send_status (h : RequestHandle) (sinkAlive : SinkAlive) (_status : Nat) : NifResult :=
  match get_response_sender h with
  | some _ => if sinkAlive then .ok else .error "Failed to send status"
  | none => .error "Response already sent"

/-- send_header from lib.rs. -/
def send_header (h : RequestHandle) (sinkAlive : SinkAlive) (_name _value : String) : NifResult :=
  match get_response_sender h with
  | some _ => if sinkAlive then .ok else .error "Failed to send header"
  | none => .error "Response already sent"

/-- write_chunk from lib.rs (the successfully-decoded-binary path; term
decoding is external marshalling). -/
def write_chunk (h : RequestHandle) (sinkAlive : SinkAlive) (_data : Chunk) : NifResult :=
  match get_response_sender h with
  | some _ => if sinkAlive then .ok else .error "Failed to write chunk"
  | none => .error "Response already sent"

/-- finish from lib.rs. -/
def finish (h : RequestHandle) (sinkAlive : SinkAlive) : NifResult :=
  match get_response_sender h with
  | some _ => if sinkAlive then .ok else .error "Failed to finish response"
  | none => .error "Response already sent"

/-- Modelled from the spec: `RequestHandle.take_upgrade`, the at-most-once
upgrade capability taken by upgrade_websocket in lib.rs. The method itself
is not among the sources at hand; per spec sections 3 and 9 it yields its
payload on first access and nothing thereafter. -/
def take_upgrade (h : RequestHandle) : Option Unit × RequestHandle :=
  match h.upgrade_slot with
  | some u => (some u, { h with upgrade_slot := none })
  | none => (none, h)

/-- eq_ignore_ascii_case on strings, as used for the header lookup in
upgrade_websocket. -/
def eqIgnoreAsciiCase (a b : String) : Bool :=
  a.data.map asciiLower == b.data.map asciiLower

/-- The Sec-WebSocket-Key header lookup of upgrade_websocket in lib.rs:
first header whose name equals sec-websocket-key ignoring ASCII case. -/
def findWsKey (headers : List (String × String)) : Option String :=
  (headers.find? (fun p => eqIgnoreAsciiCase p.1 "sec-websocket-key")).map (·.2)

/- SHA-1 and standard base64, embedding the sha1 and base64 crates used by
upgrade_websocket to derive the Sec-WebSocket-Accept value. -/

/-- Truncation to 32 bits. -/
def w32 (x : Nat) : Nat := x % 4294967296

/-- 32-bit left rotation. -/
def rotl (n x : Nat) : Nat := ((x <<< n) ||| (x >>> (32 - n))) % 4294967296

/-- Big-endian byte decomposition: the k bytes of n, most significant first. -/
def bytesBE : Nat → Nat → List Nat
  | 0, _ => []
  | k + 1, n => (n >>> (8 * k)) % 256 :: bytesBE k n

/-- SHA-1 padding: append 0x80, zeros to 56 mod 64, then the 64-bit
big-endian bit length. -/
def sha1Pad (msg : List Nat) : List Nat :=
  msg ++ [128] ++ List.replicate ((120 - (msg.length + 1) % 64) % 64) 0
    ++ bytesBE 8 (msg.length * 8)

/-- Big-endian 32-bit words of a byte list. -/
def toWordsBE : List Nat → List Nat
  | b0 :: b1 :: b2 :: b3 :: rest =>
      (((b0 * 256 + b1) * 256 + b2) * 256 + b3) :: toWordsBE rest
  | _ => []

/-- SHA-1 message schedule: extend 16 words to 80. -/
def extendSchedule (ws : List Nat) : Array Nat :=
  (List.range 64).foldl
    (fun a i =>
      let j := i + 16
      a.push (rotl 1 ((a.getD (j - 3) 0) ^^^ (a.getD (j - 8) 0) ^^^
        (a.getD (j - 14) 0) ^^^ (a.getD (j - 16) 0))))
    ws.toArray

/-- SHA-1 round function. -/
def sha1F (t b c d : Nat) : Nat :=
  if t < 20 then (b &&& c) ||| ((b ^^^ 4294967295) &&& d)
  else if t < 40 then b ^^^ c ^^^ d
  else if t < 60 then (b &&& c) ||| (b &&& d) ||| (c &&& d)
  else b ^^^ c ^^^ d

/-- SHA-1 round constants. -/
def sha1K (t : Nat) : Nat :=
  if t < 20 then 1518500249
  else if t < 40 then 1859775393
  else if t < 60 then 2400959708
  else 3395469782

structure Sha1State where
  a0 : Nat
  b0 : Nat
  c0 : Nat
  d0 : Nat
  e0 : Nat
deriving DecidableEq

/-- One 64-byte SHA-1 block. -/
def processBlock (st : Sha1State) (block : List Nat) : Sha1State :=
  let w := extendSchedule (toWordsBE block)
  let fin := (List.range 80).foldl
    (fun s t =>
      let temp := w32 (rotl 5 s.a0 + sha1F t s.b0 s.c0 s.d0 + s.e0 + sha1K t + w.getD t 0)
      ⟨temp, s.a0, w32 (rotl 30 s.b0), s.c0, s.d0⟩)
    st
  ⟨w32 (st.a0 + fin.a0), w32 (st.b0 + fin.b0), w32 (st.c0 + fin.c0),
    w32 (st.d0 + fin.d0), w32 (st.e0 + fin.e0)⟩

/-- Split a byte list into blocks of 64, carrying the current block in
reverse; structural so that the kernel can evaluate it. -/
def chunks64Go (cur : List Nat) : List Nat → List (List Nat)
  | [] => if cur = [] then [] else [cur.reverse]
  | b :: rest =>
      if cur.length = 63 then (b :: cur).reverse :: chunks64Go [] rest
      else chunks64Go (b :: cur) rest

/-- Split a byte list into 64-byte blocks. -/
def chunks64 (l : List Nat) : List (List Nat) :=
  chunks64Go [] l

/-- SHA-1 of a byte list, as 20 digest bytes. -/
def sha1Bytes (msg : List Nat) : List Nat :=
  let st := (chunks64 (sha1Pad msg)).foldl processBlock
    ⟨1732584193, 4023233417, 2562383102, 271733878, 3285377520⟩
  bytesBE 4 st.a0 ++ bytesBE 4 st.b0 ++ bytesBE 4 st.c0 ++ bytesBE 4 st.d0 ++ bytesBE 4 st.e0

/-- Standard base64 alphabet. -/
def b64Char (n : Nat) : Char :=
  if n < 26 then Char.ofNat (65 + n)
  else if n < 52 then Char.ofNat (97 + (n - 26))
  else if n < 62 then Char.ofNat (48 + (n - 52))
  else if n = 62 then '+'
  else '/'

/-- Standard base64 encoding with padding. -/
def base64Encode : List Nat → List Char
  | [] => []
  | [b0] =>
      [b64Char (b0 / 4), b64Char (b0 % 4 * 16), '=', '=']
  | [b0, b1] =>
      [b64Char (b0 / 4), b64Char (b0 % 4 * 16 + b1 / 16), b64Char (b1 % 16 * 4), '=']
  | b0 :: b1 :: b2 :: rest =>
      b64Char (b0 / 4) :: b64Char (b0 % 4 * 16 + b1 / 16)
        :: b64Char (b1 % 16 * 4 + b2 / 64) :: b64Char (b2 % 64)
        :: base64Encode rest

/-- The fixed WebSocket GUID from upgrade_websocket in lib.rs. -/
def wsGuid : String := "258EAFA5-E914-47DA-95CA-C5AB0DC85B11"

/-- The Sec-WebSocket-Accept computation of upgrade_websocket in lib.rs:
base64 of the SHA-1 of the client key followed by the GUID (the two
incremental `update` calls hash the concatenation). -/
def computeAccept (key : String) : String :=
  String.mk (base64Encode (sha1Bytes (strBytes key ++ strBytes wsGuid)))

/-- upgrade_websocket from lib.rs, up to the network completion of the
upgrade future: takes the upgrade slot (spec-modelled take_upgrade), looks
up the Sec-WebSocket-Key header, computes the accept value, and sends the
101 handshake through the response-part channel. Returns the accept value
on success, the first error otherwise, together with the resulting handle
state (the slot stays taken even on a later failure, since taking it
mutated the handle first). -/
def upgrade_websocket (h : RequestHandle) (sinkAlive : SinkAlive) :
    Except String String × RequestHandle :=
  match take_upgrade h with
  | (none, h') => (.error "Not an upgradeable request", h')
  | (some _, h') =>
    match findWsKey h'.metadata.headers with
    | none => (.error "Missing Sec-WebSocket-Key header", h')
    | some key =>
      match get_response_sender h' with
      | none => (.error "Response already sent", h')
      | some _ =>
        if sinkAlive then (.ok (computeAccept key), h')
        else (.error "Failed to send status", h')

/-- Boolean success test on the upgrade result. -/
def isOkUpgrade : Except String String → Bool
  | .ok _ => true
  | .error _ => false

/- Server core (server.rs and the server NIFs of lib.rs). -/

/-- ServerHandle from server.rs together with the parts of the channel
environment its operations observe. queued are the requests currently
buffered in the bounded request queue (identified by number); conn_senders
counts the live request_tx clones held by connection tasks; acceptor_alive
says whether the server task (the select loop of server_start, holding the
original request_tx) is still running; shutdown_tx is the mutex-guarded
optional shutdown sender. -/
structure ServerHandle where
  queued : List Nat
  conn_senders : Nat
  acceptor_alive : Bool
  shutdown_tx : Option Unit
deriving DecidableEq

/-- ServerHandle::shutdown from server.rs: takes the shutdown sender, and if
one was present sends on it, which completes the select in server_start,
ends the accept loop and drops the original request_tx. A second call finds
the Option empty and does nothing. -/
def shutdown (s : ServerHandle) : ServerHandle :=
  match s.shutdown_tx with
  | some _ => { s with shutdown_tx := none, acceptor_alive := false }
  | none => s

/-- Outcome of a receive_request call at the moment it completes. -/
inductive RecvOutcome where
  | item (id : Nat)
  | eos
  | blocked
deriving DecidableEq

/-- ServerHandle::receive_request from server.rs: `queue.recv()` on the
bounded mpsc channel. Buffered items are delivered first; an empty queue
yields the end-of-stream None only once every sender (the acceptor original
and all connection-task clones) is gone, and otherwise suspends. -/
def receive_request (s : ServerHandle) : RecvOutcome × ServerHandle :=
  match s.queued with
  | x :: rest => (.item x, { s with queued := rest })
  | [] =>
      if s.acceptor_alive ∨ 0 < s.conn_senders then (.blocked, s)
      else (.eos, s)

/-- The results of n successive receive_request calls. -/
def receiveMany : Nat → ServerHandle → List RecvOutcome
  | 0, _ => []
  | n + 1, s => (receive_request s).1 :: receiveMany n (receive_request s).2

/-- A connection task holding a live request_tx clone sending a
QueuedRequest into the queue (the enqueue step of handle_request in
server.rs). The send fails exactly when the channel has no receiver; the
receiver lives inside the ServerHandle resource, so with no live sender the
question does not arise and with the handle gone every send fails. The
model keeps the success condition: some live sender exists. -/
def try_enqueue (s : ServerHandle) (id : Nat) : Bool × ServerHandle :=
  if 0 < s.conn_senders then (true, { s with queued := s.queued ++ [id] })
  else (false, s)

/-- error_response from server.rs: the synthesized plain-text response. -/
def error_response (status : Nat) (message : String) : HttpResponse :=
  { status := u16_to_status status
    headers := [("content-type", "text/plain")]
    bodyChunks := [strBytes message] }

/-- handle_request from server.rs, after the enqueue step, as a function of
whether the enqueue send succeeded and of the messages the response-part
channel then delivers. Its Rust return type is
`Result<Response, Infallible>`: it always resolves to a response, so an
enqueue failure is answered locally with a synthesized 500 Server Error and
a response-build failure (invalid header) with a synthesized 500 Internal
Server Error; neither is propagated as an error of the connection or the
server. -/
def handle_request (enqueueOk : Bool) (msgs : List ResponseMessage) : HttpResponse :=
  if enqueueOk then
    match build_response_from_channel msgs with
    | .ok r => r
    | .error _ => error_response 500 "Internal Server Error"
  else error_response 500 "Server Error"

/- WebSocket layer (websocket.rs). -/

/-- Incoming tungstenite messages as recv_frame classifies them; raw stands
for `WsMessage::Frame`, the unclassified frame kind. -/
inductive WsMessageM where
  | text (s : String)
  | binary (b : List Nat)
  | ping (b : List Nat)
  | pong (b : List Nat)
  | close
  | raw
deriving DecidableEq

/-- Frame from websocket.rs. -/
inductive WsFrame where
  | Text (s : String)
  | Binary (b : List Nat)
  | Ping (b : List Nat)
  | Pong (b : List Nat)
  | Close
deriving DecidableEq

/-- Frame::from_ws_message from websocket.rs: raw frames map to no frame. -/
def from_ws_message : WsMessageM → Option WsFrame
  | .text s => some (.Text s)
  | .binary b => some (.Binary b)
  | .ping b => some (.Ping b)
  | .pong b => some (.Pong b)
  | .close => some .Close
  | .raw => none

/-- The underlying tungstenite stream, by the outcomes it will produce:
sendOutcomes are the successive results of `stream.send` (exhausted list =
no further modelled fault, sends succeed); incoming are the successive
results of `stream.next()`, after which the stream reports None (closed). -/
structure WsStream where
  sendOutcomes : List (Except String Unit)
  incoming : List (Except String WsMessageM)
deriving DecidableEq

/-- WebSocketHandle from websocket.rs: the mutex-guarded optional stream. -/
structure WebSocketHandle where
  stream : Option WsStream
deriving DecidableEq

/-- WebSocketHandle::send_frame from websocket.rs. With no stream the call
fails with "WebSocket closed". A send error is returned to the caller, and
the stream Option is left populated — only recv_frame ever clears it. -/
def send_frame (h : WebSocketHandle) (_f : WsFrame) :
    Except String Unit × WebSocketHandle :=
  match h.stream with
  | none => (.error "WebSocket closed", h)
  | some s =>
    match s.sendOutcomes with
    | [] => (.ok (), ⟨some s⟩)
    | .ok _ :: rest => (.ok (), ⟨some { s with sendOutcomes := rest }⟩)
    | .error e :: rest =>
        (.error ("Failed to send frame: " ++ e), ⟨some { s with sendOutcomes := rest }⟩)

/-- WebSocketHandle::recv_frame from websocket.rs. A stream error or stream
end clears the Option (terminal closed state) and reports none; a delivered
message is classified by from_ws_message with the stream kept. -/
def recv_frame (h : WebSocketHandle) : Option WsFrame × WebSocketHandle :=
  match h.stream with
  | none => (none, h)
  | some s =>
    match s.incoming with
    | .ok m :: rest => (from_ws_message m, ⟨some { s with incoming := rest }⟩)
    | .error _ :: _ => (none, ⟨none⟩)
    | [] => (none, ⟨none⟩)

/- Consumer-visible steps on a RequestHandle, for the handle-state
invariant: reading a body chunk, any of the four response sends, and the
WebSocket upgrade. -/

/-- The state effect of one consumer operation on a RequestHandle. -/
inductive HandleStep : RequestHandle → RequestHandle → Prop
  | read (h : RequestHandle) :
      HandleStep h { h with body_rx := (read_body_chunk h.body_rx).2 }
  | send (h : RequestHandle) :
      HandleStep h h
  | upgrade (h : RequestHandle) (sinkAlive : SinkAlive) :
      HandleStep h (upgrade_websocket h sinkAlive).2

/-- Handle states reachable from a given initial handle by consumer
operations. -/
inductive Reachable (h0 : RequestHandle) : RequestHandle → Prop
  | refl : Reachable h0 h0
  | step {h h' : RequestHandle} : Reachable h0 h → HandleStep h h' → Reachable h0 h'

/- Helper lemmas on the response builder loop. -/

theorem processMessages_headers (msgs : List ResponseMessage) (b : ResponseBuilder) :
    (processMessages b msgs).headers = b.headers ++ headerPairs msgs := by
  induction msgs generalizing b with
  | nil => simp [processMessages, headerPairs]
  | cons m rest ih =>
    cases m <;>
      simp [processMessages, headerPairs, ResponseBuilder.set_status,
        ResponseBuilder.add_header, ResponseBuilder.add_body_chunk, ih]

theorem processMessages_chunks (msgs : List ResponseMessage) (b : ResponseBuilder) :
    (processMessages b msgs).body_chunks = b.body_chunks ++ chunkList msgs := by
  induction msgs generalizing b with
  | nil => simp [processMessages, chunkList]
  | cons m rest ih =>
    cases m <;>
      simp [processMessages, chunkList, ResponseBuilder.set_status,
        ResponseBuilder.add_header, ResponseBuilder.add_body_chunk, ih]

theorem processMessages_status_of_no_status (msgs : List ResponseMessage)
    (hnone : ∀ c, ResponseMessage.Status c ∉ msgs) (b : ResponseBuilder) :
    (processMessages b msgs).status = b.status := by
  induction msgs generalizing b with
  | nil => simp [processMessages]
  | cons m rest ih =>
    have hrest : ∀ c, ResponseMessage.Status c ∉ rest := fun c hc =>
      hnone c (List.mem_cons_of_mem _ hc)
    cases m with
    | Status c => exact absurd (List.mem_cons_self _ _) (hnone c)
    | Header n v =>
        simp [processMessages, ResponseBuilder.add_header, ih hrest]
    | BodyChunk c =>
        simp [processMessages, ResponseBuilder.add_body_chunk, ih hrest]
    | Finish => simp [processMessages]

theorem chunkList_of_no_chunk (msgs : List ResponseMessage)
    (hnone : ∀ c, ResponseMessage.BodyChunk c ∉ msgs) :
    chunkList msgs = [] := by
  induction msgs with
  | nil => simp [chunkList]
  | cons m rest ih =>
    have hrest : ∀ c, ResponseMessage.BodyChunk c ∉ rest := fun c hc =>
      hnone c (List.mem_cons_of_mem _ hc)
    cases m with
    | BodyChunk c => exact absurd (List.mem_cons_self _ _) (hnone c)
    | Status c => simp [chunkList, ih hrest]
    | Header n v => simp [chunkList, ih hrest]
    | Finish => simp [chunkList]

theorem processMessages_append_finish (msgs : List ResponseMessage)
    (hf : ResponseMessage.Finish ∉ msgs) (b : ResponseBuilder) :
    processMessages b (msgs ++ [ResponseMessage.Finish]) = processMessages b msgs := by
  induction msgs generalizing b with
  | nil => simp [processMessages]
  | cons m rest ih =>
    have hrest : ResponseMessage.Finish ∉ rest := fun hc => hf (List.mem_cons_of_mem _ hc)
    cases m with
    | Status c => simp [processMessages, ih hrest]
    | Header n v => simp [processMessages, ih hrest]
    | BodyChunk c => simp [processMessages, ih hrest]
    | Finish => exact absurd (List.mem_cons_self _ _) hf

theorem processMessages_stops_at_finish (pre post : List ResponseMessage)
    (b : ResponseBuilder) :
    processMessages b (pre ++ ResponseMessage.Finish :: post)
      = processMessages b (pre ++ [ResponseMessage.Finish]) := by
  induction pre generalizing b with
  | nil => simp [processMessages]
  | cons m rest ih =>
    cases m <;> simp [processMessages, ih]

theorem processMessages_status (msgs : List ResponseMessage) (b : ResponseBuilder) :
    (processMessages b msgs).status = statusAcc b.status msgs := by
  induction msgs generalizing b with
  | nil => simp [processMessages, statusAcc]
  | cons m rest ih =>
    cases m <;>
      simp [processMessages, statusAcc, ResponseBuilder.set_status,
        ResponseBuilder.add_header, ResponseBuilder.add_body_chunk, ih]

theorem statusAcc_of_no_status (msgs : List ResponseMessage)
    (hnone : ∀ c, ResponseMessage.Status c ∉ msgs) (cur : Option Nat) :
    statusAcc cur msgs = cur := by
  induction msgs generalizing cur with
  | nil => simp [statusAcc]
  | cons m rest ih =>
    have hrest : ∀ c, ResponseMessage.Status c ∉ rest := fun c hc =>
      hnone c (List.mem_cons_of_mem _ hc)
    cases m with
    | Status c => exact absurd (List.mem_cons_self _ _) (hnone c)
    | Header n v => simp [statusAcc, ih hrest]
    | BodyChunk c => simp [statusAcc, ih hrest]
    | Finish => simp [statusAcc]

theorem bfc_ok_of_valid (msgs : List ResponseMessage)
    (hv : (headerPairs msgs).all validHeaderPair = true) :
    build_response_from_channel msgs
      = .ok { status := (statusAcc none msgs).getD 200
              headers := (headerPairs msgs).map (fun p => (asciiLowerString p.1, p.2))
              bodyChunks := chunkList msgs } := by
  have h1 : (processMessages ResponseBuilder.new msgs).status = statusAcc none msgs := by
    simpa [ResponseBuilder.new] using processMessages_status msgs ResponseBuilder.new
  have h2 : (processMessages ResponseBuilder.new msgs).headers = headerPairs msgs := by
    simpa [ResponseBuilder.new] using processMessages_headers msgs ResponseBuilder.new
  have h3 : (processMessages ResponseBuilder.new msgs).body_chunks = chunkList msgs := by
    simpa [ResponseBuilder.new] using processMessages_chunks msgs ResponseBuilder.new
  simp only [build_response_from_channel, ResponseBuilder.build, h1, h2, h3, hv]
  simp

theorem bfc_error_of_invalid (msgs : List ResponseMessage)
    (hv : (headerPairs msgs).all validHeaderPair = false) :
    build_response_from_channel msgs = .error "Failed to build response" := by
  have h2 : (processMessages ResponseBuilder.new msgs).headers = headerPairs msgs := by
    simpa [ResponseBuilder.new] using processMessages_headers msgs ResponseBuilder.new
  simp only [build_response_from_channel, ResponseBuilder.build, h2, hv]
  simp

/-- C1 counterexample: the claim quantifies over every status s and every
header (h, v), but send_status(0) yields a response whose status is 500
(u16_to_status maps codes outside 100..=999 to INTERNAL_SERVER_ERROR), not
0; and with the http-invalid header name "x y" the hyper builder fails, so
handle_request answers with the synthesized 500 Internal Server Error whose
header list does not contain the pair. -/
theorem C1_counterexample :
    build_response_from_channel (consumerSequence 0 "x" "y" [104] [105])
      = .ok { status := 500, headers := [("x", "y")], bodyChunks := [[104], [105]] } ∧
    handle_request true (consumerSequence 200 "x y" "v" [104] [105])
      = error_response 500 "Internal Server Error" ∧
    (error_response 500 "Internal Server Error").headers
      = [("content-type", "text/plain")] := by
  decide

/-- C1 (amended): for every status s in the valid range 100..=999 and every
http-valid header name hn and value hv and chunks c1, c2, the consumer
sequence send_status(s); send_header(hn,hv); write_chunk(c1);
write_chunk(c2); finish() makes the builder produce a response with status
s, header list exactly the pair (hn, hv) with the name in its lowercase
normal form — so containing (hn, hv) itself whenever hn is lowercase — and
body exactly the chunk stream [c1, c2], i.e. c1 ++ c2 in order with no
interleaving. -/
theorem C1_consumer_sequence (s : Nat) (h1 : 100 ≤ s) (h2 : s ≤ 999)
    (hn hv : String) (hname : validHeaderName hn = true)
    (hval : validHeaderValue hv = true) (c1 c2 : Chunk) :
    build_response_from_channel (consumerSequence s hn hv c1 c2)
      = .ok { status := s, headers := [(asciiLowerString hn, hv)],
              bodyChunks := [c1, c2] } ∧
    ([c1, c2] : List Chunk).flatten = c1 ++ c2 := by
  constructor
  · have hv' : (headerPairs (consumerSequence s hn hv c1 c2)).all validHeaderPair
        = true := by
      simp [consumerSequence, headerPairs, validHeaderPair, hname, hval]
    rw [bfc_ok_of_valid _ hv']
    simp [consumerSequence, statusAcc, headerPairs, chunkList, u16_to_status, h1, h2]
  · simp

/-- C1 witness at status 200, header Content-Type: text/plain (normalized
to lowercase), body chunks "hi" and "!". -/
theorem C1_consumer_sequence_witness :
    build_response_from_channel
        (consumerSequence 200 "Content-Type" "text/plain" [104, 105] [33])
      = .ok { status := 200,
              headers := [(asciiLowerString "Content-Type", "text/plain")],
              bodyChunks := [[104, 105], [33]] } ∧
    ([[104, 105], [33]] : List Chunk).flatten = [104, 105] ++ [33] :=
  C1_consumer_sequence 200 (by decide) (by decide) "Content-Type" "text/plain"
    (by decide) (by decide) [104, 105] [33]

/-- C6 counterexample: a message sequence whose single header message has
the http-invalid (space-containing) name "x y". The channel closes before
any Finish, yet the builder does not emit the accumulated state with that
header appended: the hyper build fails and handle_request synthesizes a 500
Internal Server Error that does not carry the header — contradicting the
headers-appended and emits-accumulated-state-as-is clauses of the claim at
this input. -/
theorem C6_counterexample :
    build_response_from_channel [ResponseMessage.Header "x y" "v"]
      = .error "Failed to build response" ∧
    handle_request true [ResponseMessage.Header "x y" "v"]
      = error_response 500 "Internal Server Error" ∧
    (error_response 500 "Internal Server Error").headers
      = [("content-type", "text/plain")] := by
  decide

/-- C6 (amended): for every message sequence whose header messages before
the first Finish all carry http-valid names and values, the built response
is exactly the accumulated state: the status of the last Status message,
defaulting to 200 when none was sent; every header appended in order with
its name in lowercase normal form (duplicates kept, not merged); and the
body the accumulated chunk list — empty, not missing, when there were zero
BodyChunk messages. The same response is emitted when the channel closes
before Finish (no error response is synthesized then), and no message after
the first Finish affects the result — these last two clauses hold for every
sequence, valid or not. A sequence with an http-invalid header instead
fails the build, and handle_request synthesizes a 500 Internal Server
Error for it. -/
theorem C6_builder_semantics :
    (∀ msgs, (headerPairs msgs).all validHeaderPair = true →
      build_response_from_channel msgs
        = .ok { status := (statusAcc none msgs).getD 200
                headers := (headerPairs msgs).map (fun p => (asciiLowerString p.1, p.2))
                bodyChunks := chunkList msgs }) ∧
    (∀ msgs, (headerPairs msgs).all validHeaderPair = true →
      (∀ c, ResponseMessage.Status c ∉ msgs) →
      build_response_from_channel msgs
        = .ok { status := 200
                headers := (headerPairs msgs).map (fun p => (asciiLowerString p.1, p.2))
                bodyChunks := chunkList msgs }) ∧
    (∀ msgs, (headerPairs msgs).all validHeaderPair = true →
      (∀ c, ResponseMessage.BodyChunk c ∉ msgs) →
      ∃ r, build_response_from_channel msgs = .ok r ∧ r.bodyChunks = []) ∧
    (∀ msgs, ResponseMessage.Finish ∉ msgs →
      build_response_from_channel msgs
        = build_response_from_channel (msgs ++ [ResponseMessage.Finish])) ∧
    (∀ pre post, build_response_from_channel (pre ++ ResponseMessage.Finish :: post)
      = build_response_from_channel (pre ++ [ResponseMessage.Finish])) ∧
    (∀ msgs, (headerPairs msgs).all validHeaderPair = false →
      handle_request true msgs = error_response 500 "Internal Server Error") := by
  refine ⟨?_, ?_, ?_, ?_, ?_, ?_⟩
  · exact fun msgs hv => bfc_ok_of_valid msgs hv
  · intro msgs hv hns
    rw [bfc_ok_of_valid msgs hv]
    simp [statusAcc_of_no_status msgs hns]
  · intro msgs hv hnc
    exact ⟨_, bfc_ok_of_valid msgs hv, by simp [chunkList_of_no_chunk msgs hnc]⟩
  · intro msgs hf
    simp [build_response_from_channel, processMessages_append_finish msgs hf]
  · intro pre post
    simp [build_response_from_channel, processMessages_stops_at_finish]
  · intro msgs hv
    simp [handle_request, bfc_error_of_invalid msgs hv]

/-- C6 witness: duplicate valid headers appended in order on a concrete
sequence, and a concrete invalid-header sequence answered with the
synthesized 500. -/
theorem C6_builder_semantics_witness :
    build_response_from_channel
        [ResponseMessage.Header "a" "1", ResponseMessage.Header "a" "2",
          ResponseMessage.Finish]
      = .ok { status := (statusAcc none [ResponseMessage.Header "a" "1",
                  ResponseMessage.Header "a" "2", ResponseMessage.Finish]).getD 200
              headers := (headerPairs [ResponseMessage.Header "a" "1",
                  ResponseMessage.Header "a" "2", ResponseMessage.Finish]).map
                    (fun p => (asciiLowerString p.1, p.2))
              bodyChunks := chunkList [ResponseMessage.Header "a" "1",
                  ResponseMessage.Header "a" "2", ResponseMessage.Finish] } ∧
    handle_request true [ResponseMessage.Header "x y" "v"]
      = error_response 500 "Internal Server Error" :=
  ⟨C6_builder_semantics.1 _ (by decide),
    C6_builder_semantics.2.2.2.2.2 _ (by decide)⟩

/- Helper lemmas on the body pump and the body reader. -/

theorem bodyPump_ne_nil (frames : List BodyFrame) : bodyPump frames ≠ [] := by
  induction frames with
  | nil => simp [bodyPump]
  | cons f rest ih => cases f <;> simp [bodyPump, ih]

theorem bodyPump_getLast_of_no_error (frames : List BodyFrame)
    (hne : ∀ e, BodyFrame.ioError e ∉ frames) :
    (bodyPump frames).getLast? = some (.ok []) := by
  induction frames with
  | nil => simp [bodyPump]
  | cons f rest ih =>
    have hrest : ∀ e, BodyFrame.ioError e ∉ rest := fun e he =>
      hne e (List.mem_cons_of_mem _ he)
    cases f with
    | data c =>
        have h1 : bodyPump (.data c :: rest) = [Except.ok c] ++ bodyPump rest := by
          simp [bodyPump]
        rw [h1, List.getLast?_append_of_ne_nil _ (bodyPump_ne_nil rest)]
        exact ih hrest
    | trailers => simpa [bodyPump] using ih hrest
    | ioError e => exact absurd (List.mem_cons_self _ _) (hne e)

theorem read_body_chunk_cons (x : BodyItem) (rest : List BodyItem) :
    read_body_chunk (some (x :: rest)) = (readItemResult x, some rest) := by
  cases x with
  | ok c =>
      by_cases hc : c = [] <;> simp [read_body_chunk, readItemResult, hc]
  | error e => simp [read_body_chunk, readItemResult]

theorem readMany_trace (items : List BodyItem) :
    readMany (items.length + 1) (some items)
      = items.map readItemResult ++ [.eof] := by
  induction items with
  | nil => simp [readMany, read_body_chunk]
  | cons x rest ih =>
      show readMany (rest.length + 1 + 1) (some (x :: rest)) = _
      rw [readMany, read_body_chunk_cons]
      simp [ih]

theorem readMany_drained (n : Nat) :
    readMany n (some []) = List.replicate n .eof := by
  induction n with
  | zero => simp [readMany]
  | succ n ih => simp [readMany, read_body_chunk, ih, List.replicate_succ]

/-- C4: reading a body to completion terminates with an explicit
end-of-stream signal. The pump always sends at least one item; for the
zero-length body (no wire frames) that item is the zero-length chunk, the
explicit EOF sentinel, not a bare channel close; on any error-free wire
body the last forwarded item is that sentinel; read_body_chunk maps the
empty chunk, and likewise the closed channel, to the end-of-stream result;
and however the wire body went, after the pump finishes a bounded number of
reads reaches end-of-stream (the trace of length-plus-one reads ends in
eof). -/
theorem C4_body_eof_terminates (frames : List BodyFrame) :
    bodyPump frames ≠ [] ∧
    bodyPump [] = [.ok []] ∧
    ((∀ e, BodyFrame.ioError e ∉ frames) →
      (bodyPump frames).getLast? = some (.ok [])) ∧
    (∀ rest, read_body_chunk (some (.ok [] :: rest)) = (.eof, some rest)) ∧
    read_body_chunk (some []) = (.eof, some []) ∧
    (readMany ((bodyPump frames).length + 1) (some (bodyPump frames))).getLast?
      = some .eof := by
  refine ⟨bodyPump_ne_nil frames, rfl, bodyPump_getLast_of_no_error frames, ?_, rfl, ?_⟩
  · intro rest
    simp [read_body_chunk]
  · rw [readMany_trace, List.getLast?_append_cons]
    rfl

/-- C4 witness on the wire body [data "hi", trailers, data ""]. -/
theorem C4_body_eof_terminates_witness :
    bodyPump [.data [104, 105], .trailers, .data []] ≠ [] ∧
    bodyPump [] = [.ok []] ∧
    ((∀ e, BodyFrame.ioError e ∉ [.data [104, 105], .trailers, .data []]) →
      (bodyPump [.data [104, 105], .trailers, .data []]).getLast? = some (.ok [])) ∧
    (∀ rest, read_body_chunk (some (.ok [] :: rest)) = (.eof, some rest)) ∧
    read_body_chunk (some []) = (.eof, some []) ∧
    (readMany ((bodyPump [.data [104, 105], .trailers, .data []]).length + 1)
        (some (bodyPump [.data [104, 105], .trailers, .data []]))).getLast?
      = some .eof :=
  C4_body_eof_terminates [.data [104, 105], .trailers, .data []]

/-- C2 counterexample: for the zero-length body the pump sends the EOF
sentinel; the first read delivers end-of-stream, and the second read —
a consumption attempt after end-of-stream was already delivered — silently
reports end-of-stream again instead of failing with the contract-violation
error (the receiver Option is never taken, so the Body stream already
consumed branch cannot fire). -/
theorem C2_counterexample :
    readMany 2 (some (bodyPump [])) = [.eof, .eof] ∧
    (read_body_chunk (read_body_chunk (some (bodyPump []))).2).1
      ≠ .err "Body stream already consumed" := by
  decide

/- Helper lemmas on the upgrade path. -/

theorem upgrade_slot_taken (h : RequestHandle) (sa : SinkAlive) :
    (upgrade_websocket h sa).2.upgrade_slot = none := by
  cases hs : h.upgrade_slot with
  | none => simp [upgrade_websocket, take_upgrade, hs]
  | some u =>
      simp only [upgrade_websocket, take_upgrade, hs]
      cases hk : findWsKey h.metadata.headers with
      | none => simp
      | some key =>
          cases ht : h.response_tx with
          | none => simp [get_response_sender, ht]
          | some t => cases sa <;> simp [get_response_sender, ht]

theorem upgrade_of_slot_none (h : RequestHandle) (sa : SinkAlive)
    (hs : h.upgrade_slot = none) :
    (upgrade_websocket h sa).1 = .error "Not an upgradeable request" := by
  simp [upgrade_websocket, take_upgrade, hs]

theorem upgrade_preserves_tx (h : RequestHandle) (sa : SinkAlive) :
    (upgrade_websocket h sa).2.response_tx = h.response_tx := by
  cases hs : h.upgrade_slot with
  | none => simp [upgrade_websocket, take_upgrade, hs]
  | some u =>
      simp only [upgrade_websocket, take_upgrade, hs]
      cases hk : findWsKey h.metadata.headers with
      | none => simp
      | some key =>
          cases ht : h.response_tx with
          | none => simp [get_response_sender, ht]
          | some t => cases sa <;> simp [get_response_sender, ht]

/-- C2 (amended): a second call to upgrade_websocket on the same request
fails with the explicit error Not an upgradeable request, since the first
call consumed the at-most-once upgrade slot whatever its outcome; but a
consumption attempt on the body source after end-of-stream was delivered is
not an error: every further read reports end-of-stream again — never stale
or duplicate data — because the receiver Option is never taken. -/
theorem C2_amended (h : RequestHandle) (sa sa' : SinkAlive) (n : Nat) :
    (upgrade_websocket (upgrade_websocket h sa).2 sa').1
      = .error "Not an upgradeable request" ∧
    readMany n (some []) = List.replicate n .eof :=
  ⟨upgrade_of_slot_none _ sa' (upgrade_slot_taken h sa), readMany_drained n⟩

set_option maxRecDepth 1000000 in
/-- C3: the accept value computed during upgrade is, for every client key
k, the base64 of the SHA-1 of k followed by the fixed GUID; on the RFC 6455
sample key it is exactly the expected accept string, both as a direct
computation and as the value upgrade_websocket hands back for a request
carrying that key. -/
theorem C3_accept_value :
    (∀ k : String,
      computeAccept k
        = String.mk (base64Encode (sha1Bytes (strBytes k
            ++ strBytes "258EAFA5-E914-47DA-95CA-C5AB0DC85B11")))) ∧
    computeAccept "dGhlIHNhbXBsZSBub25jZQ==" = "s3pPLMBiTxaQ9kYGzzhZRbK+xOo=" ∧
    (upgrade_websocket (RequestHandle.new
        ⟨"GET", "/chat", none, "HTTP/1.1",
          [("sec-websocket-key", "dGhlIHNhbXBsZSBub25jZQ==")]⟩ []) true).1
      = .ok "s3pPLMBiTxaQ9kYGzzhZRbK+xOo=" :=
  ⟨fun _ => rfl, by decide, by decide⟩

/-- C7 (spec-modelled take_upgrade): on a fresh request handle — upgrade
slot still available and response sender present, as on every handle the
connection handler creates — upgrade_websocket succeeds iff the request
carries a Sec-WebSocket-Key header (matched ignoring ASCII case) and the
response-part channel still has its receiver, i.e. the sink was not already
finished for an ordinary response; in particular a missing key fails with
the Missing Sec-WebSocket-Key header error. -/
theorem C7_upgrade_iff (h : RequestHandle) (sa : SinkAlive)
    (hslot : h.upgrade_slot = some ()) (htx : h.response_tx = some ()) :
    (isOkUpgrade (upgrade_websocket h sa).1 = true ↔
      (findWsKey h.metadata.headers).isSome = true ∧ sa = true) ∧
    (findWsKey h.metadata.headers = none →
      (upgrade_websocket h sa).1 = .error "Missing Sec-WebSocket-Key header") := by
  simp only [upgrade_websocket, take_upgrade, hslot]
  cases hk : findWsKey h.metadata.headers with
  | none => simp [isOkUpgrade]
  | some key =>
      simp only [get_response_sender, htx]
      cases sa <;> simp [isOkUpgrade]

/-- C7 witness: a fresh handle carrying the key (with a differently-cased
header name) and a live sink upgrades successfully; the iff and the
missing-key clause hold at that input. -/
theorem C7_upgrade_iff_witness :
    (isOkUpgrade (upgrade_websocket (RequestHandle.new
        ⟨"GET", "/", none, "HTTP/1.1", [("Sec-WebSocket-Key", "x")]⟩ []) true).1 = true ↔
      (findWsKey (RequestHandle.new
        ⟨"GET", "/", none, "HTTP/1.1", [("Sec-WebSocket-Key", "x")]⟩ []).metadata.headers).isSome
          = true ∧ true = true) ∧
    (findWsKey (RequestHandle.new
        ⟨"GET", "/", none, "HTTP/1.1", [("Sec-WebSocket-Key", "x")]⟩ []).metadata.headers = none →
      (upgrade_websocket (RequestHandle.new
        ⟨"GET", "/", none, "HTTP/1.1", [("Sec-WebSocket-Key", "x")]⟩ []) true).1
        = .error "Missing Sec-WebSocket-Key header") :=
  C7_upgrade_iff (RequestHandle.new
    ⟨"GET", "/", none, "HTTP/1.1", [("Sec-WebSocket-Key", "x")]⟩ []) true rfl rfl

/- Helper lemma on draining the request queue. -/

theorem receiveMany_drain (q : List Nat) (s : ServerHandle)
    (halive : s.acceptor_alive = false) (hcs : s.conn_senders = 0)
    (hq : s.queued = q) :
    receiveMany (q.length + 1) s = q.map RecvOutcome.item ++ [.eos] := by
  induction q generalizing s with
  | nil => simp [receiveMany, receive_request, hq, halive, hcs]
  | cons x rest ih =>
      have hstep : receive_request s = (.item x, { s with queued := rest }) := by
        simp [receive_request, hq]
      show receiveMany (rest.length + 1 + 1) s = _
      rw [receiveMany, hstep]
      simp only [List.map_cons, List.cons_append]
      exact congrArg _ (ih { s with queued := rest } halive hcs rfl)

/-- C5 counterexample: with one request already buffered in the queue at
shutdown time, the next receive_request returns that buffered request — the
mpsc receiver drains buffered items after the senders are gone — not the
no-more-requests result the claim demands for every post-shutdown call. -/
theorem C5_counterexample :
    (receive_request (shutdown ⟨[7], 0, true, some ()⟩)).1 = RecvOutcome.item 7 ∧
    (receive_request (shutdown ⟨[7], 0, true, some ()⟩)).1 ≠ RecvOutcome.eos := by
  decide

/-- C5 (amended): shutdown() is idempotent and stops the acceptor (the
select in server_start completes and the accept loop ends, so no new
connections enter); receive_request after shutdown first drains the
requests already buffered in the queue, in order, and returns end-of-stream
once the queue is empty — immediately so when nothing was buffered — and
once no connection-task sender clones remain no new items can be enqueued.
The hypothesis records the start-state invariant that the shutdown sender
is only ever absent after a shutdown already stopped the acceptor. -/
theorem C5_shutdown (s : ServerHandle)
    (hinv : s.shutdown_tx = none → s.acceptor_alive = false) :
    shutdown (shutdown s) = shutdown s ∧
    (shutdown s).acceptor_alive = false ∧
    (shutdown s).shutdown_tx = none ∧
    (s.conn_senders = 0 →
      receiveMany (s.queued.length + 1) (shutdown s)
        = s.queued.map RecvOutcome.item ++ [.eos]) ∧
    (∀ id, s.conn_senders = 0 → (try_enqueue (shutdown s) id).1 = false) := by
  have htx : (shutdown s).shutdown_tx = none := by
    cases hx : s.shutdown_tx <;> simp [shutdown, hx]
  have halive : (shutdown s).acceptor_alive = false := by
    cases hx : s.shutdown_tx with
    | none => simpa [shutdown, hx] using hinv hx
    | some u => simp [shutdown, hx]
  have hq : (shutdown s).queued = s.queued := by
    cases hx : s.shutdown_tx <;> simp [shutdown, hx]
  have hcs : (shutdown s).conn_senders = s.conn_senders := by
    cases hx : s.shutdown_tx <;> simp [shutdown, hx]
  have hnone : ∀ t : ServerHandle, t.shutdown_tx = none → shutdown t = t := by
    intro t ht
    obtain ⟨q, cs, al, tx⟩ := t
    cases ht
    rfl
  have hidem : shutdown (shutdown s) = shutdown s := hnone _ htx
  refine ⟨hidem, halive, htx, ?_, ?_⟩
  · intro h0
    exact receiveMany_drain s.queued (shutdown s) halive (hcs.trans h0) hq
  · intro id h0
    simp [try_enqueue, hcs, h0]

/-- C5 witness on a handle with one buffered request and no live connection
senders. -/
theorem C5_shutdown_witness :
    shutdown (shutdown ⟨[5], 0, true, some ()⟩) = shutdown ⟨[5], 0, true, some ()⟩ ∧
    (shutdown (⟨[5], 0, true, some ()⟩ : ServerHandle)).acceptor_alive = false ∧
    (shutdown (⟨[5], 0, true, some ()⟩ : ServerHandle)).shutdown_tx = none ∧
    ((⟨[5], 0, true, some ()⟩ : ServerHandle).conn_senders = 0 →
      receiveMany ((⟨[5], 0, true, some ()⟩ : ServerHandle).queued.length + 1)
          (shutdown ⟨[5], 0, true, some ()⟩)
        = (⟨[5], 0, true, some ()⟩ : ServerHandle).queued.map RecvOutcome.item ++ [.eos]) ∧
    (∀ id, (⟨[5], 0, true, some ()⟩ : ServerHandle).conn_senders = 0 →
      (try_enqueue (shutdown ⟨[5], 0, true, some ()⟩) id).1 = false) :=
  C5_shutdown ⟨[5], 0, true, some ()⟩ (by simp)

/-- C8: when the enqueue send fails because the request queue has shut
down, handle_request answers that very request with the synthesized 500
response — status 500, content-type text/plain, body Server Error — and the
failure stays local: the Rust function returns Result with an Infallible
error type, embedded here as a total function into responses, so nothing
fatal propagates. -/
theorem C8_enqueue_failure (msgs : List ResponseMessage) :
    handle_request false msgs = error_response 500 "Server Error" ∧
    (handle_request false msgs).status = 500 ∧
    (handle_request false msgs).headers = [("content-type", "text/plain")] ∧
    (handle_request false msgs).bodyChunks = [strBytes "Server Error"] := by
  refine ⟨rfl, ?_, rfl, rfl⟩
  simp [handle_request, error_response, u16_to_status]

/-- C9 counterexample: a handle whose stream fails one send and then
recovers. The first send_frame reports the stream error, yet the next
send_frame succeeds and a recv_frame still delivers a frame — so a
send-direction stream error does not put the handle into a terminal closed
state, contradicting the claim. -/
theorem C9_counterexample :
    ((send_frame ⟨some ⟨[.error "io"], [.ok (.text "x")]⟩⟩ .Close).1
      = .error "Failed to send frame: io") ∧
    ((send_frame (send_frame ⟨some ⟨[.error "io"], [.ok (.text "x")]⟩⟩ .Close).2 .Close).1
      = .ok ()) ∧
    ((recv_frame (send_frame ⟨some ⟨[.error "io"], [.ok (.text "x")]⟩⟩ .Close).2).1
      = some (.Text "x")) := by
  decide

/-- C9 (amended): the closed state is terminal and is entered from the
receive direction: once recv_frame observes a stream error or the end of
the stream it clears the handle, and from then on every send_frame fails
with WebSocket closed and every recv_frame reports closed — the handle
never reopens. A send-direction error is returned to the caller but does
not by itself transition the handle to closed. -/
theorem C9_closed_terminal :
    (∀ f, send_frame ⟨none⟩ f = (.error "WebSocket closed", ⟨none⟩)) ∧
    recv_frame ⟨none⟩ = (none, ⟨none⟩) ∧
    (∀ h f, h.stream = none → send_frame h f = (.error "WebSocket closed", h)) ∧
    (∀ h, h.stream = none → recv_frame h = (none, h)) ∧
    (∀ s e rest, s.incoming = .error e :: rest → recv_frame ⟨some s⟩ = (none, ⟨none⟩)) ∧
    (∀ s, s.incoming = [] → recv_frame ⟨some s⟩ = (none, ⟨none⟩)) := by
  refine ⟨fun f => rfl, rfl, ?_, ?_, ?_, ?_⟩
  · intro h f hs
    obtain ⟨st⟩ := h
    cases hs
    rfl
  · intro h hs
    obtain ⟨st⟩ := h
    cases hs
    rfl
  · intro s e rest hi
    obtain ⟨snd, inc⟩ := s
    cases hi
    rfl
  · intro s hi
    obtain ⟨snd, inc⟩ := s
    cases hi
    rfl

/-- C9 witness: the terminal-state clauses at concrete handles. -/
theorem C9_closed_terminal_witness :
    send_frame ⟨none⟩ .Close = (.error "WebSocket closed", ⟨none⟩) ∧
    recv_frame ⟨none⟩ = (none, ⟨none⟩) ∧
    recv_frame ⟨some ⟨[], [.error "io"]⟩⟩ = (none, ⟨none⟩) ∧
    recv_frame ⟨some ⟨[], []⟩⟩ = (none, ⟨none⟩) :=
  ⟨C9_closed_terminal.1 .Close, C9_closed_terminal.2.1,
    C9_closed_terminal.2.2.2.2.1 ⟨[], [.error "io"]⟩ "io" [] rfl,
    C9_closed_terminal.2.2.2.2.2 ⟨[], []⟩ rfl⟩

/- Helper lemma: the response sender Option survives every consumer step. -/

theorem reachable_response_tx (md : RequestMetadata) (items : List BodyItem)
    (h : RequestHandle) (hr : Reachable (RequestHandle.new md items) h) :
    h.response_tx = some () := by
  induction hr with
  | refl => rfl
  | step _ st ih =>
      cases st with
      | read => exact ih
      | send => exact ih
      | upgrade sa => rw [upgrade_preserves_tx]; exact ih

/-- C10: on every handle reachable from a connection-handler-created
RequestHandle by consumer operations, get_response_sender still returns a
clone of the original sender — the Option is read, never taken — so the
Response already sent branch of send_status, send_header, write_chunk and
finish is unreachable; after the builder has processed finish() and dropped
the channel receiver, these operations fail with their respective
Failed-to-send channel errors, never with Response already sent. -/
theorem C10_sender_always_present (md : RequestMetadata) (items : List BodyItem)
    (h : RequestHandle) (hr : Reachable (RequestHandle.new md items) h) :
    get_response_sender h = some () ∧
    (∀ sa c, send_status h sa c ≠ .error "Response already sent") ∧
    (∀ sa n v, send_header h sa n v ≠ .error "Response already sent") ∧
    (∀ sa c, write_chunk h sa c ≠ .error "Response already sent") ∧
    (∀ sa, finish h sa ≠ .error "Response already sent") ∧
    (∀ c, send_status h false c = .error "Failed to send status") ∧
    (∀ n v, send_header h false n v = .error "Failed to send header") ∧
    (∀ c, write_chunk h false c = .error "Failed to write chunk") ∧
    finish h false = .error "Failed to finish response" := by
  have htx : get_response_sender h = some () := reachable_response_tx md items h hr
  refine ⟨htx, ?_, ?_, ?_, ?_, ?_, ?_, ?_, ?_⟩
  · intro sa c
    cases sa <;> simp [send_status, htx]
  · intro sa n v
    cases sa <;> simp [send_header, htx]
  · intro sa c
    cases sa <;> simp [write_chunk, htx]
  · intro sa
    cases sa <;> simp [finish, htx]
  · intro c
    simp [send_status, htx]
  · intro n v
    simp [send_header, htx]
  · intro c
    simp [write_chunk, htx]
  · simp [finish, htx]

/-- C10 witness at the freshly created handle for a bodyless GET. -/
theorem C10_sender_always_present_witness :
    get_response_sender (RequestHandle.new ⟨"GET", "/", none, "HTTP/1.1", []⟩ []) = some () ∧
    (∀ sa c, send_status (RequestHandle.new ⟨"GET", "/", none, "HTTP/1.1", []⟩ []) sa c
      ≠ .error "Response already sent") ∧
    (∀ sa n v, send_header (RequestHandle.new ⟨"GET", "/", none, "HTTP/1.1", []⟩ []) sa n v
      ≠ .error "Response already sent") ∧
    (∀ sa c, write_chunk (RequestHandle.new ⟨"GET", "/", none, "HTTP/1.1", []⟩ []) sa c
      ≠ .error "Response already sent") ∧
    (∀ sa, finish (RequestHandle.new ⟨"GET", "/", none, "HTTP/1.1", []⟩ []) sa
      ≠ .error "Response already sent") ∧
    (∀ c, send_status (RequestHandle.new ⟨"GET", "/", none, "HTTP/1.1", []⟩ []) false c
      = .error "Failed to send status") ∧
    (∀ n v, send_header (RequestHandle.new ⟨"GET", "/", none, "HTTP/1.1", []⟩ []) false n v
      = .error "Failed to send header") ∧
    (∀ c, write_chunk (RequestHandle.new ⟨"GET", "/", none, "HTTP/1.1", []⟩ []) false c
      = .error "Failed to write chunk") ∧
    finish (RequestHandle.new ⟨"GET", "/", none, "HTTP/1.1", []⟩ []) false
      = .error "Failed to finish response" :=
  C10_sender_always_present ⟨"GET", "/", none, "HTTP/1.1", []⟩ []
    (RequestHandle.new ⟨"GET", "/", none, "HTTP/1.1", []⟩ []) Reachable.refl

end Sparx
